import Mathlib

set_option maxRecDepth 100000

/-!
Verification of the Rufusl FAT32 formatter (src/linux/fat32.c).

The C function format_fat32 receives an open device descriptor, a cluster
size request byte and a label string.  It queries the device capacity in
512-byte sectors, checks it against the FAT32 addressing limit, resolves
sectors-per-cluster, computes the FAT size with the uint32 formula from the
FAT32 specification, patches four fields of a constant 512-byte BPB
template, and issues six seek-then-write calls followed by sync().

The embedding below keeps the C names where Lean allows it.  Machine
integers are modelled as Nat with explicit reduction modulo 2^32 exactly
where the C types force a reduction.  The device is modelled as an oracle
telling whether the k-th seek-then-write call succeeds; the SEEKNWRITE
macro itself lives in a header that is not part of src/, so its
abort-on-failure behaviour is modelled from the spec (see runWrites).
-/

/-- 2^32, the modulus of uint32 arithmetic. -/
def U32MOD : Nat := 4294967296

/-- Cluster size request: the seven BS_* byte-size constants accepted by the
switch in format_fat32 (declared in definitions.h, outside src/), plus
autoSize standing for every other value of the uint8 argument, which falls
into the default branch of the switch. -/
inductive ClusterSize where
  | bs512B
  | bs1024B
  | bs2048B
  | bs4096B
  | bs8192B
  | bs16384B
  | bs32768B
  | autoSize
deriving DecidableEq

/-- Outcome of format_fat32.  The C function returns -1 at four distinct
failure sites, told apart by the diagnostic each site emits; the
constructors name those sites using the vocabulary of the spec. -/
inductive FormatResult where
  | success
  | capacityQueryFailed
  | volumeTooLarge
  | volumeTooSmall
  | writeFailed
deriving DecidableEq

/-- One seek-then-write call: a byte offset and the bytes written. -/
structure WriteOp where
  off : Nat
  data : List Nat
deriving DecidableEq

/-- Observable outcome of one call: the returned result, the trace of
attempted seek-then-write calls (a failing attempt is the last element),
whether sync() was reached, and whether the label-truncation diagnostic
was emitted. -/
structure FormatOutcome where
  result : FormatResult
  writes : List WriteOp
  flushed : Bool
  truncWarn : Bool
deriving DecidableEq

/-- The 512-byte FAT32 BPB template, byte for byte from fat32.c.
Bytes 90 to 509 are the blank boot code area, all zero in the source. -/
def fat32_bpb : List Nat :=
  [0xEB, 0x00, 0x90,
   0x52, 0x55, 0x46, 0x55, 0x53, 0x4C, 0x00, 0x00,
   0x00, 0x02,
   0x00,
   0x20, 0x00,
   0x02,
   0x00, 0x00,
   0x00, 0x00,
   0xF8,
   0x00, 0x00,
   0xFF, 0xFF,
   0xFF, 0xFF,
   0x00, 0x00, 0x00, 0x00,
   0x00, 0x00, 0x00, 0x00,
   0x00, 0x00, 0x00, 0x00,
   0x00, 0x00,
   0x00, 0x00,
   0x02, 0x00, 0x00, 0x00,
   0x01, 0x00,
   0x06, 0x00,
   0x00, 0x00, 0x00, 0x00, 0x00, 0x00,
   0x00, 0x00, 0x00, 0x00, 0x00, 0x00,
   0x80,
   0x00,
   0x29,
   0xBE, 0xBA, 0xFE, 0xCA,
   0x4E, 0x4F, 0x20, 0x4E, 0x41, 0x4D,
   0x45, 0x20, 0x20, 0x20, 0x20,
   0x46, 0x41, 0x54, 0x33, 0x32, 0x20, 0x20, 0x20]
  ++ List.replicate 420 0
  ++ [0x55, 0xAA]

/-- The 512-byte FSInfo template, byte for byte from fat32.c: lead
signature at 0, zeros up to 483, structure signature at 484, all-ones
free-count and next-free sentinels at 488 and 492, reserved zeros, and
the trailing 0x55 0xAA signature. -/
def fat32_fsi : List Nat :=
  [0x52, 0x52, 0x61, 0x41]
  ++ List.replicate 480 0
  ++ [0x72, 0x72, 0x41, 0x61,
      0xFF, 0xFF, 0xFF, 0xFF,
      0xFF, 0xFF, 0xFF, 0xFF,
      0x00, 0x00, 0x00, 0x00, 0x00, 0x00,
      0x00, 0x00, 0x00, 0x00, 0x00, 0x00,
      0x00, 0x00, 0x55, 0xAA]

/-- The 12-byte minimal FAT template: media descriptor entry, root
directory End-Of-Chain, spare End-Of-Chain, little-endian as stored. -/
def fat32_fat : List Nat :=
  [0xF8, 0xFF, 0xFF, 0x0F,
   0xFF, 0xFF, 0xFF, 0x0F,
   0xFF, 0xFF, 0xFF, 0x0F]

/-- Read one byte of a buffer; out-of-range reads yield 0 (never exercised
at the offsets the theorems use, all below 512). -/
def byteAt (a : List Nat) (i : Nat) : Nat := a.getD i 0

/-- The byte the C code reads at label[i].  A C string is its list of
bytes followed by a 0 terminator, so reads beyond the list yield 0. -/
def labelSrc (label : List Nat) (i : Nat) : Nat := label.getD i 0

/-- strlen of the modelled C string: bytes before the first 0. -/
def cstrlen (label : List Nat) : Nat :=
  (label.takeWhile (fun b => b != 0)).length

/-- Store a 32-bit value little-endian at off, in the byte order the C
code uses (high byte first): the four stores of STEP 2/4 and 3/4. -/
def setU32LE (a : List Nat) (off v : Nat) : List Nat :=
  (((a.set (off + 3) ((v >>> 24) % 256)).set
      (off + 2) ((v >>> 16) % 256)).set
      (off + 1) ((v >>> 8) % 256)).set
      off (v % 256)

/-- The inner loop of STEP 4/4: once a terminator was met at index i, the
remaining fuel positions 71+i .. 71+i+fuel-1 of the BPB are zero-filled. -/
def zeroFill (a : List Nat) (i : Nat) : Nat → List Nat
  | 0 => a
  | n + 1 => zeroFill (a.set (71 + i) 0) (i + 1) n

/-- The label loop of STEP 4/4, fuel = 11 - i: copy src i into BPB byte
71+i; on a 0 byte switch to the zero-filling inner loop (which rewrites
position i with the same 0 and continues to position 10), else advance. -/
def labelLoop (src : Nat → Nat) (a : List Nat) (i : Nat) : Nat → List Nat
  | 0 => a
  | n + 1 =>
    if src i = 0 then zeroFill (a.set (71 + i) (src i)) i (n + 1)
    else labelLoop src (a.set (71 + i) (src i)) (i + 1) n

/-- STEPs 1/4 to 4/4 of format_fat32: patch sectors-per-cluster at byte 13,
total sectors at bytes 32-35, FAT size at bytes 36-39, and the label at
bytes 71-81 of the BPB template.  The offsets are the BPB_*_OFFSET macros,
whose values the legend comment in fat32.c records. -/
def patch_bpb (BPB_SecPerClus BPB_TotSec32 BPB_FATSz32 : Nat)
    (label : List Nat) : List Nat :=
  labelLoop (labelSrc label)
    (setU32LE (setU32LE (fat32_bpb.set 13 BPB_SecPerClus) 32 BPB_TotSec32)
      36 BPB_FATSz32)
    0 11

/-- The default branch of the cluster-size switch: ascending capacity
thresholds; below 66600 sectors the volume is too small (none).  In C the
final arm leaves BPB_SecPerClus uninitialized when DskSize is not below
0xFFFFFFFF; that arm is unreachable after the capacity check in
format_fat32, and 0 stands for the indeterminate value. -/
def autoSecPerClus (DskSize : Nat) : Option Nat :=
  if DskSize < 66600 then none
  else if DskSize < 532480 then some 1
  else if DskSize < 16777216 then some 8
  else if DskSize < 33554432 then some 16
  else if DskSize < 67108864 then some 32
  else if DskSize < 4294967295 then some 64
  else some 0

/-- The cluster-size switch of format_fat32: the seven explicit BS_* cases
map directly to sectors-per-cluster; every other request byte falls into
the default branch, which resolves by capacity. -/
def secPerClus : ClusterSize → Nat → Option Nat
  | .bs512B, _ => some 1
  | .bs1024B, _ => some 2
  | .bs2048B, _ => some 4
  | .bs4096B, _ => some 8
  | .bs8192B, _ => some 16
  | .bs16384B, _ => some 32
  | .bs32768B, _ => some 64
  | .autoSize, DskSize => autoSecPerClus DskSize

/-- The FAT size computation of format_fat32, uint32 semantics throughout:
TmpVal1 = BPB_TotSec32 - 32 (wrapping), TmpVal2 = ((256 * SecPerClus) + 2) / 2,
FATSz32 = (TmpVal1 + (TmpVal2 - 1)) / TmpVal2 with a wrapping sum.
BPB_TotSec32 is a uint32 value, below 2^32. -/
def fatSz32 (BPB_TotSec32 BPB_SecPerClus : Nat) : Nat :=
  let TmpVal1 := (BPB_TotSec32 + U32MOD - 32) % U32MOD
  let TmpVal2 := ((256 * BPB_SecPerClus) + 2) / 2
  ((TmpVal1 + (TmpVal2 - 1)) % U32MOD) / TmpVal2

/-- Modelled from the spec, section 4.2 (FAT Size Calculator), in the words
of the spec: usable = totalSectors - reservedSectors;
entriesPerFatSectorPair = ((256 x sectorsPerCluster) + numFats) / 2 with
integer division; FAT size = ceiling division of usable by
entriesPerFatSectorPair, all with unsigned 32-bit wraparound semantics.
Used only to compare the code formula (fatSz32) against the spec formula. -/
def specFatSize (totalSectors sectorsPerCluster : Nat) : Nat :=
  let reservedSectors : Nat := 32
  let numFats : Nat := 2
  let usable := (totalSectors + U32MOD - reservedSectors) % U32MOD
  let entriesPerFatSectorPair := ((256 * sectorsPerCluster) + numFats) / 2
  ((usable + (entriesPerFatSectorPair - 1)) % U32MOD) / entriesPerFatSectorPair

/-- Modelled from the spec, section 4.4: each SEEKNWRITE is a seek-then-write
pair (the macro is declared in fat32.h, outside src/) and any write failure
aborts the sequence immediately and is reported.  dev k tells whether the
k-th call succeeds; the trace records every attempted call, the failing
one included, and the Bool is true when all calls succeeded. -/
def runWrites (dev : Nat → Bool) : Nat → List WriteOp → Bool × List WriteOp
  | _, [] => (true, [])
  | k, w :: ws =>
    if dev k then
      let r := runWrites dev (k + 1) ws
      (r.1, w :: r.2)
    else (false, [w])

/-- format_fat32 from fat32.c.  capacity is the BLKGETSIZE ioctl result
(none when the ioctl fails), in 512-byte sectors; label the C string of
label bytes; dev the write oracle.  The six writes land at byte offsets
0, 512, 3072, 3584, 32*512, and ((32 + FATSz32) * 512) reduced mod 2^32,
the last because uint16 + uint32 arithmetic keeps the product in uint32.
sync() is a void call with no failure path, so flushed is true exactly on
the success path. -/
def format_fat32 (capacity : Option Nat) (cluster_size : ClusterSize)
    (label : List Nat) (dev : Nat → Bool) : FormatOutcome :=
  match capacity with
  | none => ⟨.capacityQueryFailed, [], false, false⟩
  | some DskSize =>
    if DskSize > 4294967294 then ⟨.volumeTooLarge, [], false, false⟩
    else
      match secPerClus cluster_size DskSize with
      | none => ⟨.volumeTooSmall, [], false, false⟩
      | some spc =>
        let BPB_TotSec32 := DskSize % U32MOD
        let BPB_FATSz32 := fatSz32 BPB_TotSec32 spc
        let bpb := patch_bpb spc BPB_TotSec32 BPB_FATSz32 label
        let warn := decide (11 < cstrlen label)
        let ws : List WriteOp :=
          [⟨0, bpb⟩, ⟨512, fat32_fsi⟩, ⟨3072, bpb⟩, ⟨3584, fat32_fsi⟩,
           ⟨32 * 512, fat32_fat⟩,
           ⟨((32 + BPB_FATSz32) * 512) % U32MOD, fat32_fat⟩]
        let r := runWrites dev 0 ws
        if r.1 then ⟨.success, r.2, true, warn⟩
        else ⟨.writeFailed, r.2, false, warn⟩

/-! ### Helper lemmas about buffer reads and the patch loops -/

theorem byteAt_set_ne (a : List Nat) (j v i : Nat) (h : i ≠ j) :
    byteAt (a.set j v) i = byteAt a i := by
  unfold byteAt
  rw [List.getD_eq_getElem?_getD, List.getD_eq_getElem?_getD,
    List.getElem?_set_ne (fun hji => h hji.symm)]

theorem byteAt_set_eq (a : List Nat) (j v : Nat) (h : j < a.length) :
    byteAt (a.set j v) j = v := by
  unfold byteAt
  rw [List.getD_eq_getElem?_getD, List.getElem?_set_eq_of_lt v h]
  rfl

theorem length_setU32LE (a : List Nat) (off v : Nat) :
    (setU32LE a off v).length = a.length := by
  simp [setU32LE]

theorem length_zeroFill (fuel : Nat) : ∀ (a : List Nat) (i : Nat),
    (zeroFill a i fuel).length = a.length := by
  induction fuel with
  | zero => intro a i; rfl
  | succ n ih => intro a i; rw [zeroFill, ih]; simp

theorem length_labelLoop (src : Nat → Nat) (fuel : Nat) :
    ∀ (a : List Nat) (i : Nat), (labelLoop src a i fuel).length = a.length := by
  induction fuel with
  | zero => intro a i; rfl
  | succ n ih =>
    intro a i
    rw [labelLoop]
    by_cases h : src i = 0
    · rw [if_pos h, length_zeroFill]; simp
    · rw [if_neg h, ih]; simp

theorem byteAt_zeroFill_lt (fuel : Nat) : ∀ (a : List Nat) (i t : Nat),
    t < 71 + i → byteAt (zeroFill a i fuel) t = byteAt a t := by
  induction fuel with
  | zero => intro a i t _; rfl
  | succ n ih =>
    intro a i t ht
    rw [zeroFill, ih _ _ _ (by omega), byteAt_set_ne _ _ _ _ (by omega)]

theorem byteAt_zeroFill_ge (fuel : Nat) : ∀ (a : List Nat) (i t : Nat),
    71 + i + fuel ≤ t → byteAt (zeroFill a i fuel) t = byteAt a t := by
  induction fuel with
  | zero => intro a i t _; rfl
  | succ n ih =>
    intro a i t ht
    rw [zeroFill, ih _ _ _ (by omega), byteAt_set_ne _ _ _ _ (by omega)]

theorem byteAt_zeroFill_mem (fuel : Nat) : ∀ (a : List Nat) (i j : Nat),
    j < fuel → 71 + i + j < a.length → byteAt (zeroFill a i fuel) (71 + i + j) = 0 := by
  induction fuel with
  | zero => intro a i j hj _; omega
  | succ n ih =>
    intro a i j hj hlen
    rw [zeroFill]
    match j, hj with
    | 0, _ =>
      rw [byteAt_zeroFill_lt _ _ _ _ (by omega)]
      have : (71 : Nat) + i + 0 = 71 + i := by omega
      rw [this]
      exact byteAt_set_eq a (71 + i) 0 (by omega)
    | j' + 1, _ =>
      have : (71 : Nat) + i + (j' + 1) = 71 + (i + 1) + j' := by omega
      rw [this]
      exact ih _ (i + 1) j' (by omega) (by simp; omega)

theorem byteAt_labelLoop_lt (src : Nat → Nat) (fuel : Nat) :
    ∀ (a : List Nat) (i t : Nat), t < 71 + i →
    byteAt (labelLoop src a i fuel) t = byteAt a t := by
  induction fuel with
  | zero => intro a i t _; rfl
  | succ n ih =>
    intro a i t ht
    rw [labelLoop]
    by_cases h : src i = 0
    · rw [if_pos h, byteAt_zeroFill_lt _ _ _ _ (by omega),
        byteAt_set_ne _ _ _ _ (by omega)]
    · rw [if_neg h, ih _ _ _ (by omega), byteAt_set_ne _ _ _ _ (by omega)]

theorem byteAt_labelLoop_ge (src : Nat → Nat) (fuel : Nat) :
    ∀ (a : List Nat) (i t : Nat), 71 + i + fuel ≤ t →
    byteAt (labelLoop src a i fuel) t = byteAt a t := by
  induction fuel with
  | zero => intro a i t _; rfl
  | succ n ih =>
    intro a i t ht
    rw [labelLoop]
    by_cases h : src i = 0
    · rw [if_pos h, byteAt_zeroFill_ge _ _ _ _ (by omega),
        byteAt_set_ne _ _ _ _ (by omega)]
    · rw [if_neg h, ih _ _ _ (by omega), byteAt_set_ne _ _ _ _ (by omega)]

theorem byteAt_labelLoop_copy (src : Nat → Nat) (fuel : Nat) :
    ∀ (a : List Nat) (i j : Nat), j < fuel → 71 + i + fuel ≤ a.length →
    (∀ m, m ≤ j → src (i + m) ≠ 0) →
    byteAt (labelLoop src a i fuel) (71 + i + j) = src (i + j) := by
  induction fuel with
  | zero => intro a i j hj _ _; omega
  | succ n ih =>
    intro a i j hj hlen hnz
    have hi : src i ≠ 0 := by
      have := hnz 0 (by omega)
      simpa using this
    rw [labelLoop, if_neg hi]
    match j, hj with
    | 0, _ =>
      rw [byteAt_labelLoop_lt _ _ _ _ _ (by omega)]
      have h0 : (71 : Nat) + i + 0 = 71 + i := by omega
      have hi0 : i + 0 = i := by omega
      rw [h0, hi0]
      exact byteAt_set_eq a (71 + i) (src i) (by omega)
    | j' + 1, _ =>
      have he : (71 : Nat) + i + (j' + 1) = 71 + (i + 1) + j' := by omega
      have he2 : i + (j' + 1) = (i + 1) + j' := by omega
      rw [he, he2]
      exact ih _ (i + 1) j' (by omega) (by simp; omega)
        (fun m hm => by
          have := hnz (m + 1) (by omega)
          have harg : i + (m + 1) = i + 1 + m := by omega
          rwa [harg] at this)

theorem byteAt_labelLoop_zero (src : Nat → Nat) (fuel : Nat) :
    ∀ (a : List Nat) (i j : Nat), j < fuel → 71 + i + fuel ≤ a.length →
    (∃ m, m ≤ j ∧ src (i + m) = 0) →
    byteAt (labelLoop src a i fuel) (71 + i + j) = 0 := by
  induction fuel with
  | zero => intro a i j hj _ _; omega
  | succ n ih =>
    intro a i j hj hlen hz
    rw [labelLoop]
    by_cases hi : src i = 0
    · rw [if_pos hi]
      exact byteAt_zeroFill_mem _ _ _ _ (by omega) (by simp; omega)
    · rw [if_neg hi]
      obtain ⟨m, hm, hm0⟩ := hz
      match m, hm0 with
      | 0, hm0 => exact absurd (by simpa using hm0) hi
      | m' + 1, hm0 =>
        match j, hj with
        | 0, _ => omega
        | j' + 1, _ =>
          have he : (71 : Nat) + i + (j' + 1) = 71 + (i + 1) + j' := by omega
          rw [he]
          exact ih _ (i + 1) j' (by omega) (by simp; omega)
            ⟨m', by omega, by
              have harg : i + 1 + m' = i + (m' + 1) := by omega
              rw [harg]; exact hm0⟩

/-! ### Helper lemmas about format_fat32 -/

theorem format_fat32_writePhase (c : Nat) (cs : ClusterSize) (label : List Nat)
    (dev : Nat → Bool) (spc : Nat) (h1 : c ≤ 4294967294)
    (h2 : secPerClus cs c = some spc) (hdev : ∀ k, dev k = true) :
    format_fat32 (some c) cs label dev =
      ⟨.success,
       [⟨0, patch_bpb spc (c % U32MOD) (fatSz32 (c % U32MOD) spc) label⟩,
        ⟨512, fat32_fsi⟩,
        ⟨3072, patch_bpb spc (c % U32MOD) (fatSz32 (c % U32MOD) spc) label⟩,
        ⟨3584, fat32_fsi⟩,
        ⟨16384, fat32_fat⟩,
        ⟨((32 + fatSz32 (c % U32MOD) spc) * 512) % U32MOD, fat32_fat⟩],
       true, decide (11 < cstrlen label)⟩ := by
  have hle : ¬ c > 4294967294 := by omega
  simp only [format_fat32, hle, if_false, h2, runWrites, hdev 0, hdev 1, hdev 2,
    hdev 3, hdev 4, hdev 5, if_true]

theorem cstrlen_cons (b : Nat) (bs : List Nat) :
    cstrlen (b :: bs) = if b = 0 then 0 else cstrlen bs + 1 := by
  by_cases hb : b = 0
  · simp [cstrlen, List.takeWhile_cons, hb]
  · simp [cstrlen, List.takeWhile_cons, hb]

theorem labelSrc_ne_zero_of_lt_cstrlen :
    ∀ (label : List Nat) (m : Nat), m < cstrlen label → labelSrc label m ≠ 0 := by
  intro label
  induction label with
  | nil => intro m h; simp [cstrlen] at h
  | cons b bs ih =>
    intro m h
    rw [cstrlen_cons] at h
    by_cases hb : b = 0
    · rw [if_pos hb] at h; omega
    · rw [if_neg hb] at h
      match m with
      | 0 => simpa [labelSrc] using hb
      | m' + 1 => simpa [labelSrc] using ih m' (by omega)

/-! ### The claims -/

/-- C2: under the automatic cluster-size policy, for every capacity c in
512-byte sectors passing the too-large check, the five half-open threshold
intervals pick sectors-per-cluster 1, 8, 16, 32 and 64 respectively, first
match winning. -/
theorem claimC2_auto_thresholds (c : Nat) (h : c ≤ 4294967294) :
    (66600 ≤ c → c < 532480 → secPerClus .autoSize c = some 1) ∧
    (532480 ≤ c → c < 16777216 → secPerClus .autoSize c = some 8) ∧
    (16777216 ≤ c → c < 33554432 → secPerClus .autoSize c = some 16) ∧
    (33554432 ≤ c → c < 67108864 → secPerClus .autoSize c = some 32) ∧
    (67108864 ≤ c → c < 4294967295 → secPerClus .autoSize c = some 64) := by
  refine ⟨fun h1 h2 => ?_, fun h1 h2 => ?_, fun h1 h2 => ?_,
    fun h1 h2 => ?_, fun h1 h2 => ?_⟩ <;>
    simp only [secPerClus, autoSecPerClus]
  · rw [if_neg (by omega : ¬ c < 66600), if_pos h2]
  · rw [if_neg (by omega : ¬ c < 66600), if_neg (by omega : ¬ c < 532480),
      if_pos h2]
  · rw [if_neg (by omega : ¬ c < 66600), if_neg (by omega : ¬ c < 532480),
      if_neg (by omega : ¬ c < 16777216), if_pos h2]
  · rw [if_neg (by omega : ¬ c < 66600), if_neg (by omega : ¬ c < 532480),
      if_neg (by omega : ¬ c < 16777216), if_neg (by omega : ¬ c < 33554432),
      if_pos h2]
  · rw [if_neg (by omega : ¬ c < 66600), if_neg (by omega : ¬ c < 532480),
      if_neg (by omega : ¬ c < 16777216), if_neg (by omega : ¬ c < 33554432),
      if_neg (by omega : ¬ c < 67108864), if_pos h2]

theorem claimC2_witness :
    66600 ≤ 100000 ∧ 100000 < 532480 ∧ secPerClus .autoSize 100000 = some 1 :=
  ⟨by decide, by decide,
    (claimC2_auto_thresholds 100000 (by decide)).1 (by decide) (by decide)⟩

/-- C3: the FAT size computed by the code equals the formula of the spec
(usable = totalSectors - 32; entriesPerFatSectorPair = ((256 x spc) + 2) / 2;
ceiling division), with unsigned 32-bit wraparound semantics; and whenever
no wraparound occurs the result is the plain ceiling division. -/
theorem claimC3_fat_size (t s : Nat) :
    fatSz32 t s = specFatSize t s ∧
    (32 ≤ t → t < U32MOD → (t - 32) + 128 * s < U32MOD →
      fatSz32 t s = ((t - 32) + ((128 * s + 1) - 1)) / (128 * s + 1)) := by
  refine ⟨rfl, fun h1 h2 h3 => ?_⟩
  have e2 : ((256 * s) + 2) / 2 = 128 * s + 1 := by omega
  simp only [fatSz32, U32MOD, e2]
  have ha : (t + 4294967296 - 32) % 4294967296 = t - 32 := by
    simp only [U32MOD] at h2
    omega
  have hb : ((t - 32) + (128 * s + 1 - 1)) % 4294967296 = (t - 32) + (128 * s + 1 - 1) := by
    simp only [U32MOD] at h3
    omega
  rw [ha, hb]

theorem claimC3_witness :
    32 ≤ 100000 ∧ 100000 < U32MOD ∧ (100000 - 32) + 128 * 1 < U32MOD ∧
    fatSz32 100000 1 = ((100000 - 32) + ((128 * 1 + 1) - 1)) / (128 * 1 + 1) :=
  ⟨by decide, by decide, by decide,
    (claimC3_fat_size 100000 1).2 (by decide) (by decide) (by decide)⟩

/-- C5: a capacity above 2^32 - 2 sectors fails as VolumeTooLarge under any
policy, and a capacity below 66600 sectors under the automatic policy fails
as VolumeTooSmall; in both cases no write is issued. -/
theorem claimC5_capacity_errors :
    (∀ (c : Nat) (cs : ClusterSize) (label : List Nat) (dev : Nat → Bool),
      4294967294 < c →
      format_fat32 (some c) cs label dev = ⟨.volumeTooLarge, [], false, false⟩) ∧
    (∀ (c : Nat) (label : List Nat) (dev : Nat → Bool),
      c < 66600 →
      format_fat32 (some c) .autoSize label dev =
        ⟨.volumeTooSmall, [], false, false⟩) := by
  constructor
  · intro c cs label dev h
    simp only [format_fat32, gt_iff_lt, if_pos h]
  · intro c label dev h
    have h2 : ¬ c > 4294967294 := by omega
    simp only [format_fat32, h2, if_false, secPerClus, autoSecPerClus, if_pos h]

theorem claimC5_witness :
    format_fat32 (some 5000000000) .autoSize [] (fun _ => true) =
      ⟨.volumeTooLarge, [], false, false⟩ ∧
    format_fat32 (some 50000) .autoSize [] (fun _ => true) =
      ⟨.volumeTooSmall, [], false, false⟩ :=
  ⟨claimC5_capacity_errors.1 5000000000 .autoSize [] (fun _ => true) (by decide),
   claimC5_capacity_errors.2 50000 [] (fun _ => true) (by decide)⟩

/-- C6: an explicit cluster-size request maps directly to sectors-per-cluster
(512 B to 1, 1024 B to 2, ..., 32768 B to 64) with no capacity validation:
even below the 66600-sector automatic minimum an explicit request formats
successfully (only the too-large bound still applies). -/
theorem claimC6_explicit_request :
    (∀ c, secPerClus .bs512B c = some 1) ∧
    (∀ c, secPerClus .bs1024B c = some 2) ∧
    (∀ c, secPerClus .bs2048B c = some 4) ∧
    (∀ c, secPerClus .bs4096B c = some 8) ∧
    (∀ c, secPerClus .bs8192B c = some 16) ∧
    (∀ c, secPerClus .bs16384B c = some 32) ∧
    (∀ c, secPerClus .bs32768B c = some 64) ∧
    (∀ (c : Nat) (cs : ClusterSize) (label : List Nat) (dev : Nat → Bool),
      cs ≠ ClusterSize.autoSize → c ≤ 4294967294 → c < 66600 →
      (∀ k, dev k = true) →
      (format_fat32 (some c) cs label dev).result = .success) := by
  refine ⟨fun c => rfl, fun c => rfl, fun c => rfl, fun c => rfl, fun c => rfl,
    fun c => rfl, fun c => rfl, ?_⟩
  intro c cs label dev hcs hc _ hdev
  cases cs with
  | autoSize => exact absurd rfl hcs
  | bs512B => rw [format_fat32_writePhase c .bs512B label dev 1 hc rfl hdev]
  | bs1024B => rw [format_fat32_writePhase c .bs1024B label dev 2 hc rfl hdev]
  | bs2048B => rw [format_fat32_writePhase c .bs2048B label dev 4 hc rfl hdev]
  | bs4096B => rw [format_fat32_writePhase c .bs4096B label dev 8 hc rfl hdev]
  | bs8192B => rw [format_fat32_writePhase c .bs8192B label dev 16 hc rfl hdev]
  | bs16384B => rw [format_fat32_writePhase c .bs16384B label dev 32 hc rfl hdev]
  | bs32768B => rw [format_fat32_writePhase c .bs32768B label dev 64 hc rfl hdev]

theorem claimC6_witness :
    (format_fat32 (some 50000) .bs512B [] (fun _ => true)).result =
      FormatResult.success :=
  claimC6_explicit_request.2.2.2.2.2.2.2 50000 .bs512B [] (fun _ => true)
    (by decide) (by decide) (by decide) (fun k => rfl)

/-- C9: when the device capacity cannot be obtained, the call fails as
CapacityQueryFailed with no write issued and no flush. -/
theorem claimC9_capacity_query (cs : ClusterSize) (label : List Nat)
    (dev : Nat → Bool) :
    format_fat32 none cs label dev = ⟨.capacityQueryFailed, [], false, false⟩ :=
  rfl

theorem fat32_bpb_length : fat32_bpb.length = 512 := by decide

theorem patch_bpb_label_copy (spc tot f : Nat) (label : List Nat) (j : Nat)
    (hj : j < 11) (hnz : ∀ m, m ≤ j → labelSrc label m ≠ 0) :
    byteAt (patch_bpb spc tot f label) (71 + j) = labelSrc label j := by
  have hlen :
      (setU32LE (setU32LE (fat32_bpb.set 13 spc) 32 tot) 36 f).length = 512 := by
    rw [length_setU32LE, length_setU32LE, List.length_set, fat32_bpb_length]
  have h := byteAt_labelLoop_copy (labelSrc label) 11
    (setU32LE (setU32LE (fat32_bpb.set 13 spc) 32 tot) 36 f) 0 j hj
    (by rw [hlen]; omega) (fun m hm => by simpa using hnz m hm)
  simpa [patch_bpb] using h

theorem patch_bpb_label_zero (spc tot f : Nat) (label : List Nat) (j : Nat)
    (hj : j < 11) (hz : ∃ m, m ≤ j ∧ labelSrc label m = 0) :
    byteAt (patch_bpb spc tot f label) (71 + j) = 0 := by
  have hlen :
      (setU32LE (setU32LE (fat32_bpb.set 13 spc) 32 tot) 36 f).length = 512 := by
    rw [length_setU32LE, length_setU32LE, List.length_set, fat32_bpb_length]
  obtain ⟨m, hm, hm0⟩ := hz
  have h := byteAt_labelLoop_zero (labelSrc label) 11
    (setU32LE (setU32LE (fat32_bpb.set 13 spc) 32 tot) 36 f) 0 j hj
    (by rw [hlen]; omega) ⟨m, hm, by simpa using hm0⟩
  simpa [patch_bpb] using h

theorem patch_bpb_frame (spc tot f : Nat) (label : List Nat) (i : Nat)
    (h13 : i ≠ 13) (h32 : ¬(32 ≤ i ∧ i ≤ 39)) (h71 : ¬(71 ≤ i ∧ i ≤ 81)) :
    byteAt (patch_bpb spc tot f label) i = byteAt fat32_bpb i := by
  unfold patch_bpb
  by_cases hlt : i < 71
  · rw [byteAt_labelLoop_lt _ _ _ _ _ (by omega)]
    simp only [setU32LE]
    rw [byteAt_set_ne _ _ _ _ (by omega), byteAt_set_ne _ _ _ _ (by omega),
      byteAt_set_ne _ _ _ _ (by omega), byteAt_set_ne _ _ _ _ (by omega),
      byteAt_set_ne _ _ _ _ (by omega), byteAt_set_ne _ _ _ _ (by omega),
      byteAt_set_ne _ _ _ _ (by omega), byteAt_set_ne _ _ _ _ (by omega),
      byteAt_set_ne _ _ _ _ (by omega)]
  · have hge : 82 ≤ i := by omega
    rw [byteAt_labelLoop_ge _ _ _ _ _ (by omega)]
    simp only [setU32LE]
    rw [byteAt_set_ne _ _ _ _ (by omega), byteAt_set_ne _ _ _ _ (by omega),
      byteAt_set_ne _ _ _ _ (by omega), byteAt_set_ne _ _ _ _ (by omega),
      byteAt_set_ne _ _ _ _ (by omega), byteAt_set_ne _ _ _ _ (by omega),
      byteAt_set_ne _ _ _ _ (by omega), byteAt_set_ne _ _ _ _ (by omega),
      byteAt_set_ne _ _ _ _ (by omega)]

/-- C4: the 11-byte label field at BPB bytes 71..81 copies source bytes until
11 bytes or a 0 byte; from a terminator on, the rest of the field is 0; if
the label is longer than 11 bytes exactly its first 11 bytes are copied
with no padding, the non-fatal truncation diagnostic is raised and the
call still succeeds; label MYUSB gives M Y U S B and six 0 bytes. -/
theorem claimC4_label_field :
    (∀ (spc tot f : Nat) (label : List Nat) (j : Nat), j < 11 →
      (∀ m, m ≤ j → labelSrc label m ≠ 0) →
      byteAt (patch_bpb spc tot f label) (71 + j) = labelSrc label j) ∧
    (∀ (spc tot f : Nat) (label : List Nat) (j : Nat), j < 11 →
      (∃ m, m ≤ j ∧ labelSrc label m = 0) →
      byteAt (patch_bpb spc tot f label) (71 + j) = 0) ∧
    (∀ (spc tot f : Nat) (label : List Nat) (j : Nat), j < 11 →
      11 < cstrlen label →
      byteAt (patch_bpb spc tot f label) (71 + j) = labelSrc label j) ∧
    (∀ (c : Nat) (cs : ClusterSize) (label : List Nat) (dev : Nat → Bool)
      (spc : Nat),
      c ≤ 4294967294 → secPerClus cs c = some spc → (∀ k, dev k = true) →
      11 < cstrlen label →
      (format_fat32 (some c) cs label dev).truncWarn = true ∧
      (format_fat32 (some c) cs label dev).result = .success) ∧
    ((List.range 11).map
        (fun j =>
          byteAt (patch_bpb 1 100000 775 [0x4D, 0x59, 0x55, 0x53, 0x42]) (71 + j)) =
      [0x4D, 0x59, 0x55, 0x53, 0x42, 0, 0, 0, 0, 0, 0]) := by
  refine ⟨patch_bpb_label_copy, patch_bpb_label_zero, ?_, ?_, by decide⟩
  · intro spc tot f label j hj hlong
    exact patch_bpb_label_copy spc tot f label j hj
      (fun m hm => labelSrc_ne_zero_of_lt_cstrlen label m (by omega))
  · intro c cs label dev spc h1 h2 hdev hlong
    rw [format_fat32_writePhase c cs label dev spc h1 h2 hdev]
    exact ⟨by simpa using hlong, rfl⟩

theorem claimC4_witness :
    (0 : Nat) < 11 ∧ 11 < cstrlen (List.replicate 12 65) ∧
    byteAt (patch_bpb 1 100000 775 (List.replicate 12 65)) (71 + 0) =
      labelSrc (List.replicate 12 65) 0 ∧
    (format_fat32 (some 100000) .autoSize (List.replicate 12 65)
        (fun _ => true)).truncWarn = true ∧
    (format_fat32 (some 100000) .autoSize (List.replicate 12 65)
        (fun _ => true)).result = .success :=
  ⟨by decide, by decide,
    claimC4_label_field.2.2.1 1 100000 775 (List.replicate 12 65) 0 (by decide)
      (by decide),
    (claimC4_label_field.2.2.2.1 100000 .autoSize (List.replicate 12 65)
        (fun _ => true) 1 (by decide) (by decide) (fun k => rfl) (by decide)).1,
    (claimC4_label_field.2.2.2.1 100000 .autoSize (List.replicate 12 65)
        (fun _ => true) 1 (by decide) (by decide) (fun k => rfl) (by decide)).2⟩

/-- C7: every BPB byte outside the four patched fields (byte 13, bytes
32..39, bytes 71..81) reaches the disk with its constant template value,
and the template carries the advertised constants: 512 bytes per sector at
offset 11, 32 reserved sectors at 14, 2 FATs at 16, media byte 0xF8 at 21,
root cluster 2 at 44, FSInfo index 1 at 48, backup boot index 6 at 50,
boot signature 0x29 at 66, the string FAT32 plus three blanks at 82,
zeroed boot code from 90 to 509, and 0x55 0xAA at 510. -/
theorem claimC7_bpb_frame :
    (∀ (spc tot f : Nat) (label : List Nat) (i : Nat), i < 512 → i ≠ 13 →
      ¬(32 ≤ i ∧ i ≤ 39) → ¬(71 ≤ i ∧ i ≤ 81) →
      byteAt (patch_bpb spc tot f label) i = byteAt fat32_bpb i) ∧
    (byteAt fat32_bpb 11 + 256 * byteAt fat32_bpb 12 = 512) ∧
    (byteAt fat32_bpb 14 + 256 * byteAt fat32_bpb 15 = 32) ∧
    (byteAt fat32_bpb 16 = 2) ∧
    (byteAt fat32_bpb 21 = 0xF8) ∧
    (byteAt fat32_bpb 44 + 256 * byteAt fat32_bpb 45 +
      65536 * byteAt fat32_bpb 46 + 16777216 * byteAt fat32_bpb 47 = 2) ∧
    (byteAt fat32_bpb 48 + 256 * byteAt fat32_bpb 49 = 1) ∧
    (byteAt fat32_bpb 50 + 256 * byteAt fat32_bpb 51 = 6) ∧
    (byteAt fat32_bpb 66 = 0x29) ∧
    ((List.range 8).map (fun j => byteAt fat32_bpb (82 + j)) =
      [0x46, 0x41, 0x54, 0x33, 0x32, 0x20, 0x20, 0x20]) ∧
    (∀ i, i < 510 → 90 ≤ i → byteAt fat32_bpb i = 0) ∧
    (byteAt fat32_bpb 510 = 0x55 ∧ byteAt fat32_bpb 511 = 0xAA) := by
  refine ⟨?_, by decide, by decide, by decide, by decide, by decide, by decide,
    by decide, by decide, by decide, by decide, by decide, by decide⟩
  intro spc tot f label i _ h13 h32 h71
  exact patch_bpb_frame spc tot f label i h13 h32 h71

theorem claimC7_witness :
    byteAt (patch_bpb 1 100000 775 [0x54, 0x45, 0x53, 0x54]) 21 =
      byteAt fat32_bpb 21 :=
  claimC7_bpb_frame.1 1 100000 775 [0x54, 0x45, 0x53, 0x54] 21 (by decide)
    (by decide) (by decide) (by decide)

/-- C8: a failing write aborts the sequence at once (later writes are not
issued) and the call reports WriteFailed with no flush; when all six
writes succeed, the synchronous flush is forced and only then success is
returned.  The modelled sync() is a void blocking call, so the flush has
no failure path of its own. -/
theorem claimC8_write_failure :
    (∀ (c : Nat) (cs : ClusterSize) (label : List Nat) (dev : Nat → Bool)
      (spc : Nat), c ≤ 4294967294 → secPerClus cs c = some spc →
      (∀ k, dev k = true) →
      (format_fat32 (some c) cs label dev).result = .success ∧
      (format_fat32 (some c) cs label dev).flushed = true ∧
      (format_fat32 (some c) cs label dev).writes.length = 6) ∧
    (∀ (c : Nat) (cs : ClusterSize) (label : List Nat) (dev : Nat → Bool)
      (spc k : Nat), c ≤ 4294967294 → secPerClus cs c = some spc →
      k < 6 → (∀ j, j < k → dev j = true) → dev k = false →
      (format_fat32 (some c) cs label dev).result = .writeFailed ∧
      (format_fat32 (some c) cs label dev).writes.length = k + 1 ∧
      (format_fat32 (some c) cs label dev).flushed = false) := by
  constructor
  · intro c cs label dev spc h1 h2 hdev
    rw [format_fat32_writePhase c cs label dev spc h1 h2 hdev]
    exact ⟨rfl, rfl, rfl⟩
  · intro c cs label dev spc k h1 h2 hk hjt hkf
    have hle : ¬ c > 4294967294 := by omega
    interval_cases k
    · simp [format_fat32, hle, h2, runWrites, hkf]
    · simp [format_fat32, hle, h2, runWrites, hjt 0 (by omega), hkf]
    · simp [format_fat32, hle, h2, runWrites, hjt 0 (by omega),
        hjt 1 (by omega), hkf]
    · simp [format_fat32, hle, h2, runWrites, hjt 0 (by omega),
        hjt 1 (by omega), hjt 2 (by omega), hkf]
    · simp [format_fat32, hle, h2, runWrites, hjt 0 (by omega),
        hjt 1 (by omega), hjt 2 (by omega), hjt 3 (by omega), hkf]
    · simp [format_fat32, hle, h2, runWrites, hjt 0 (by omega),
        hjt 1 (by omega), hjt 2 (by omega), hjt 3 (by omega),
        hjt 4 (by omega), hkf]

theorem claimC8_witness :
    (format_fat32 (some 100000) .autoSize [] (fun k => k != 2)).result =
      .writeFailed ∧
    (format_fat32 (some 100000) .autoSize [] (fun k => k != 2)).writes.length =
      2 + 1 ∧
    (format_fat32 (some 100000) .autoSize [] (fun k => k != 2)).flushed =
      false :=
  claimC8_write_failure.2 100000 .autoSize [] (fun k => k != 2) 1 2 (by decide)
    (by decide) (by decide) (by decide) (by decide)

/-- C1 counterexample: at capacity 1082126337 sectors with an explicit
512-byte cluster request the call reaches the write phase, yet the sixth
write does not land at byte offset (32 + FATSz32) x 512: the uint32
product wraps modulo 2^32, refuting the stated offset list. -/
theorem claimC1_counterexample :
    (format_fat32 (some 1082126337) .bs512B [0x54, 0x45, 0x53, 0x54]
        (fun _ => true)).writes.map WriteOp.off ≠
      [0, 512, 3072, 3584, 16384,
       (32 + fatSz32 (1082126337 % U32MOD) 1) * 512] := by
  rw [format_fat32_writePhase 1082126337 .bs512B [0x54, 0x45, 0x53, 0x54]
    (fun _ => true) 1 (by decide) (by decide) (fun k => rfl)]
  simp only [List.map]
  decide

/-- C1 amended: a call reaching the write phase with all writes succeeding
issues exactly six writes, in order, at byte offsets 0, 512, 3072, 3584,
32 x 512 = 16384, and ((32 + FATSz32) x 512) reduced modulo 2^32 (equal to
(32 + FATSz32) x 512 whenever that product is below 2^32, as it always is
under the automatic policy thresholds); both BPB writes carry the same
patched bytes and both FSInfo and both FAT writes carry the unpatched
template bytes. -/
theorem claimC1_write_layout (c : Nat) (cs : ClusterSize) (label : List Nat)
    (dev : Nat → Bool) (spc : Nat) (h1 : c ≤ 4294967294)
    (h2 : secPerClus cs c = some spc) (hdev : ∀ k, dev k = true) :
    (format_fat32 (some c) cs label dev).writes =
      [⟨0, patch_bpb spc (c % U32MOD) (fatSz32 (c % U32MOD) spc) label⟩,
       ⟨512, fat32_fsi⟩,
       ⟨3072, patch_bpb spc (c % U32MOD) (fatSz32 (c % U32MOD) spc) label⟩,
       ⟨3584, fat32_fsi⟩,
       ⟨16384, fat32_fat⟩,
       ⟨((32 + fatSz32 (c % U32MOD) spc) * 512) % U32MOD, fat32_fat⟩] := by
  rw [format_fat32_writePhase c cs label dev spc h1 h2 hdev]

theorem claimC1_witness :
    (format_fat32 (some 100000) .autoSize [0x54, 0x45, 0x53, 0x54]
        (fun _ => true)).writes =
      [⟨0, patch_bpb 1 (100000 % U32MOD) (fatSz32 (100000 % U32MOD) 1)
          [0x54, 0x45, 0x53, 0x54]⟩,
       ⟨512, fat32_fsi⟩,
       ⟨3072, patch_bpb 1 (100000 % U32MOD) (fatSz32 (100000 % U32MOD) 1)
          [0x54, 0x45, 0x53, 0x54]⟩,
       ⟨3584, fat32_fsi⟩,
       ⟨16384, fat32_fat⟩,
       ⟨((32 + fatSz32 (100000 % U32MOD) 1) * 512) % U32MOD, fat32_fat⟩] :=
  claimC1_write_layout 100000 .autoSize [0x54, 0x45, 0x53, 0x54]
    (fun _ => true) 1 (by decide) (by decide) (fun k => rfl)

/-- C10: the sixth write offset equals ((32 + FATSz32) x 512) mod 2^32 for
every call reaching the write phase; and there are inputs the capacity
check accepts (explicit 512-byte clusters, capacity 1082126337 sectors,
FATSz32 = 8388577 which is at least 8388576) where the product passes 2^32
and the secondary FAT lands at the offset reduced modulo 2^32 instead of
(32 + FATSz32) x 512. -/
theorem claimC10_offset_wrap :
    (∀ (c : Nat) (cs : ClusterSize) (label : List Nat) (dev : Nat → Bool)
      (spc : Nat), c ≤ 4294967294 → secPerClus cs c = some spc →
      (∀ k, dev k = true) →
      ((format_fat32 (some c) cs label dev).writes.getD 5 ⟨0, []⟩).off =
        ((32 + fatSz32 (c % U32MOD) spc) * 512) % U32MOD) ∧
    (1082126337 ≤ 4294967294 ∧
     secPerClus .bs512B 1082126337 = some 1 ∧
     8388576 ≤ fatSz32 (1082126337 % U32MOD) 1 ∧
     U32MOD < (32 + fatSz32 (1082126337 % U32MOD) 1) * 512 ∧
     ((format_fat32 (some 1082126337) .bs512B [] (fun _ => true)).writes.getD 5
         ⟨0, []⟩).off =
       ((32 + fatSz32 (1082126337 % U32MOD) 1) * 512) % U32MOD ∧
     ((format_fat32 (some 1082126337) .bs512B [] (fun _ => true)).writes.getD 5
         ⟨0, []⟩).off ≠ (32 + fatSz32 (1082126337 % U32MOD) 1) * 512) := by
  constructor
  · intro c cs label dev spc h1 h2 hdev
    rw [format_fat32_writePhase c cs label dev spc h1 h2 hdev]
    rfl
  · refine ⟨by decide, by decide, by decide, by decide, ?_, ?_⟩
    · rw [format_fat32_writePhase 1082126337 .bs512B [] (fun _ => true) 1
        (by decide) (by decide) (fun k => rfl)]
      rfl
    · rw [format_fat32_writePhase 1082126337 .bs512B [] (fun _ => true) 1
        (by decide) (by decide) (fun k => rfl)]
      decide

theorem claimC10_witness :
    ((format_fat32 (some 100000) .autoSize [] (fun _ => true)).writes.getD 5
        ⟨0, []⟩).off =
      ((32 + fatSz32 (100000 % U32MOD) 1) * 512) % U32MOD :=
  claimC10_offset_wrap.1 100000 .autoSize [] (fun _ => true) 1 (by decide)
    (by decide) (fun k => rfl)
